import Mathlib

/-!
Verification of the MQTT 3.1.1 lightweight serializer/deserializer library
(`mqtt_lightweight.h`).  The repository ships only the public header; the
function bodies are modelled from the specification document (wire format,
size calculators, serializers, incoming-packet reader, deserializers).
Bytes are modelled as `Nat` values (callers supply values `< 256`);
buffers are `List Nat` whose length is the buffer capacity; C out-parameters
become extra components of the result tuple (taking the initial value of the
out-parameter as an argument when the claim concerns whether it is written).
-/

/-- Return codes from MQTT functions, from the `MQTTStatus` enum in
`mqtt_lightweight.h`. -/
inductive MQTTStatus where
  | MQTTSuccess
  | MQTTBadParameter
  | MQTTNoMemory
  | MQTTSendFailed
  | MQTTRecvFailed
  | MQTTBadResponse
  | MQTTServerRefused
  | MQTTNoDataAvailable
  | MQTTIllegalState
  | MQTTStateCollision
  | MQTTKeepAliveTimeout
deriving DecidableEq, Repr

/-- MQTT Quality of Service values, from the `MQTTQoS` enum in
`mqtt_lightweight.h`. -/
inductive MQTTQoS where
  | MQTTQoS0
  | MQTTQoS1
  | MQTTQoS2
deriving DecidableEq, Repr

/-- Numeric (wire) value of a QoS level. -/
def MQTTQoS.toNat : MQTTQoS → Nat
  | .MQTTQoS0 => 0
  | .MQTTQoS1 => 1
  | .MQTTQoS2 => 2

/-- Inverse of `MQTTQoS.toNat` on `{0, 1, 2}` (used when decoding the two QoS
bits of a PUBLISH flags nibble; the value 3 is rejected before this is
applied). -/
def qosOfNat : Nat → MQTTQoS
  | 0 => .MQTTQoS0
  | 1 => .MQTTQoS1
  | _ => .MQTTQoS2

/-- MQTT CONNECT packet parameters, from `struct MQTTConnectInfo`.
Borrowed string/length pairs are modelled as byte lists (the list length is
the length field); the optional user name and password use `Option`, where
`none` models a NULL pointer with length 0 (the spec requires absent ⇔
length 0 and no value). -/
structure MQTTConnectInfo where
  cleanSession : Bool
  keepAliveSeconds : Nat
  pClientIdentifier : List Nat
  pUserName : Option (List Nat)
  pPassword : Option (List Nat)
deriving DecidableEq, Repr

/-- MQTT PUBLISH packet parameters, from `struct MqttPublishInfo`.
Topic name and payload are byte lists; their lengths model the
`topicNameLength` and `payloadLength` fields. -/
structure MQTTPublishInfo where
  qos : MQTTQoS
  retain : Bool
  dup : Bool
  pTopicName : List Nat
  pPayload : List Nat
deriving DecidableEq, Repr

/-- MQTT SUBSCRIBE packet parameters, from `struct MQTTSubscribeInfo`. -/
structure MQTTSubscribeInfo where
  qos : MQTTQoS
  pTopicFilter : List Nat
deriving DecidableEq, Repr

/-- MQTT incoming packet descriptor, from `struct MQTTPacketInfo`: the raw
type byte, the remaining serialized data and its declared length. -/
structure MQTTPacketInfo where
  type : Nat
  pRemainingData : List Nat
  remainingLength : Nat
deriving DecidableEq, Repr

/-- Packet type constants from `mqtt_lightweight.h` (lines 40-53). -/
def MQTT_PACKET_TYPE_CONNECT : Nat := 0x10
/-- CONNACK packet type constant from `mqtt_lightweight.h`. -/
def MQTT_PACKET_TYPE_CONNACK : Nat := 0x20
/-- PUBLISH packet type constant from `mqtt_lightweight.h`. -/
def MQTT_PACKET_TYPE_PUBLISH : Nat := 0x30
/-- PUBACK packet type constant from `mqtt_lightweight.h`. -/
def MQTT_PACKET_TYPE_PUBACK : Nat := 0x40
/-- PUBREC packet type constant from `mqtt_lightweight.h`. -/
def MQTT_PACKET_TYPE_PUBREC : Nat := 0x50
/-- PUBREL packet type constant from `mqtt_lightweight.h`. -/
def MQTT_PACKET_TYPE_PUBREL : Nat := 0x62
/-- PUBCOMP packet type constant from `mqtt_lightweight.h`. -/
def MQTT_PACKET_TYPE_PUBCOMP : Nat := 0x70
/-- SUBSCRIBE packet type constant from `mqtt_lightweight.h`. -/
def MQTT_PACKET_TYPE_SUBSCRIBE : Nat := 0x82
/-- SUBACK packet type constant from `mqtt_lightweight.h`. -/
def MQTT_PACKET_TYPE_SUBACK : Nat := 0x90
/-- UNSUBSCRIBE packet type constant from `mqtt_lightweight.h`. -/
def MQTT_PACKET_TYPE_UNSUBSCRIBE : Nat := 0xA2
/-- UNSUBACK packet type constant from `mqtt_lightweight.h`. -/
def MQTT_PACKET_TYPE_UNSUBACK : Nat := 0xB0
/-- PINGREQ packet type constant from `mqtt_lightweight.h`. -/
def MQTT_PACKET_TYPE_PINGREQ : Nat := 0xC0
/-- PINGRESP packet type constant from `mqtt_lightweight.h`. -/
def MQTT_PACKET_TYPE_PINGRESP : Nat := 0xD0
/-- DISCONNECT packet type constant from `mqtt_lightweight.h`. -/
def MQTT_PACKET_TYPE_DISCONNECT : Nat := 0xE0

/-- A PINGREQ packet is always 2 bytes (`MQTT_PACKET_PINGREQ_SIZE`). -/
def MQTT_PACKET_PINGREQ_SIZE : Nat := 2

/-- PUBACK/PUBREC/PUBREL/PUBCOMP packets are always 4 bytes
(`MQTT_PUBLISH_ACK_PACKET_SIZE`). -/
def MQTT_PUBLISH_ACK_PACKET_SIZE : Nat := 4

/-- Modelled from the spec: the largest value representable by the MQTT
Remaining Length varint, `2 ^ 28 - 1 = 268435455`. -/
def MQTT_MAX_REMAINING_LENGTH : Nat := 268435455

/-- Modelled from the spec (the varint codec of the missing
`mqtt_lightweight.c`): number of bytes of the minimal Remaining Length
encoding of `x` (1 byte per 7 value bits). -/
def remainingLengthEncodedSize (x : Nat) : Nat :=
  if x < 128 then 1
  else if x < 16384 then 2
  else if x < 2097152 then 3
  else 4

/-- Modelled from the spec: one step per output byte of the Remaining Length
encoder; each byte holds 7 value bits, bit 7 set means more bytes follow.
The fuel is the maximal encoding length 4; values in the varint range
(≤ `MQTT_MAX_REMAINING_LENGTH`) never exhaust it. -/
def encodeRLAux : Nat → Nat → List Nat
  | 0, _ => []
  | fuel + 1, x =>
    if x < 128 then [x]
    else (x % 128 + 128) :: encodeRLAux fuel (x / 128)

/-- Modelled from the spec: the minimal Remaining Length varint encoding of
`x` (valid for `x ≤ MQTT_MAX_REMAINING_LENGTH`). -/
def encodeRemainingLength (x : Nat) : List Nat :=
  encodeRLAux 4 x

/-- Modelled from the spec: big-endian encoding of a 16-bit value (high byte
first), as used for all length prefixes, the keep-alive field and packet
identifiers. -/
def encodeU16 (n : Nat) : List Nat :=
  [n / 256 % 256, n % 256]

theorem encodeRemainingLength_length (x : Nat)
    (h : x ≤ MQTT_MAX_REMAINING_LENGTH) :
    (encodeRemainingLength x).length = remainingLengthEncodedSize x := by
  unfold MQTT_MAX_REMAINING_LENGTH at h
  unfold encodeRemainingLength remainingLengthEncodedSize
  by_cases h1 : x < 128
  · simp [encodeRLAux, h1]
  · by_cases h2 : x < 16384
    · have hd : x / 128 < 128 := by omega
      simp [encodeRLAux, h1, h2, hd]
    · by_cases h3 : x < 2097152
      · have hd1 : ¬ x / 128 < 128 := by omega
        have hd2 : x / 128 / 128 < 128 := by omega
        simp [encodeRLAux, h1, h2, h3, hd1, hd2]
      · have hd1 : ¬ x / 128 < 128 := by omega
        have hd2 : ¬ x / 128 / 128 < 128 := by omega
        have hd3 : x / 128 / 128 / 128 < 128 := by omega
        simp [encodeRLAux, h1, h2, h3, hd1, hd2, hd3]

/-- Modelled from the spec (§6 wire format): the CONNECT connect-flags byte.
Bit layout: user-name (bit 7), password (bit 6), will-retain (bit 5),
will-QoS (bits 4-3), will-flag (bit 2), clean-session (bit 1), reserved 0. -/
def connectFlags (c : MQTTConnectInfo) (w : Option MQTTPublishInfo) : Nat :=
  (if c.cleanSession then 2 else 0)
  + (match w with
     | none => 0
     | some wi => 4 + 8 * wi.qos.toNat + (if wi.retain then 32 else 0))
  + (if c.pPassword.isSome then 64 else 0)
  + (if c.pUserName.isSome then 128 else 0)

/-- Modelled from the spec (§6 wire format): the Remaining Length of a
CONNECT packet: a 10-byte variable header (protocol name, level, connect
flags, keep-alive) plus the length-prefixed client identifier, will topic
and payload (if a will is given), user name and password (if present). -/
def connectRemainingLength (c : MQTTConnectInfo) (w : Option MQTTPublishInfo) : Nat :=
  10 + (2 + c.pClientIdentifier.length)
  + (match w with
     | none => 0
     | some wi => 2 + wi.pTopicName.length + 2 + wi.pPayload.length)
  + (match c.pUserName with
     | none => 0
     | some u => 2 + u.length)
  + (match c.pPassword with
     | none => 0
     | some p => 2 + p.length)

/-- Modelled from the spec: `MQTT_GetConnectPacketSize` (its body is not in
the repository sources).  Computes Remaining Length and total packet size
for a CONNECT packet; fails with `MQTTBadParameter` when the Remaining
Length would exceed the 28-bit varint range.  The out-parameters
`pRemainingLength` and `pPacketSize` are the second and third result
components. -/
def MQTT_GetConnectPacketSize (c : MQTTConnectInfo) (w : Option MQTTPublishInfo) :
    MQTTStatus × Nat × Nat :=
  let rl := connectRemainingLength c w
  if rl > MQTT_MAX_REMAINING_LENGTH then (.MQTTBadParameter, 0, 0)
  else (.MQTTSuccess, rl, 1 + remainingLengthEncodedSize rl + rl)

/-- Modelled from the spec (§6 wire format): the full serialized byte list
of a CONNECT packet with Remaining Length `rl`. -/
def serializeConnectBytes (c : MQTTConnectInfo) (w : Option MQTTPublishInfo)
    (rl : Nat) : List Nat :=
  MQTT_PACKET_TYPE_CONNECT :: encodeRemainingLength rl
  ++ [0, 4, 77, 81, 84, 84, 4, connectFlags c w]
  ++ encodeU16 c.keepAliveSeconds
  ++ encodeU16 c.pClientIdentifier.length ++ c.pClientIdentifier
  ++ (match w with
      | none => []
      | some wi => encodeU16 wi.pTopicName.length ++ wi.pTopicName
                   ++ encodeU16 wi.pPayload.length ++ wi.pPayload)
  ++ (match c.pUserName with
      | none => []
      | some u => encodeU16 u.length ++ u)
  ++ (match c.pPassword with
      | none => []
      | some p => encodeU16 p.length ++ p)

/-- Modelled from the spec: `MQTT_SerializeConnect`.  The caller-supplied
`remainingLength` must equal the value the size calculator produces
(spec §4.3: a stale value is a parameter error); the total size is checked
against the buffer capacity before any byte is written (`MQTTNoMemory`,
buffer unmodified, on shortfall).  The result pairs the status with the
buffer contents after the call. -/
def MQTT_SerializeConnect (c : MQTTConnectInfo) (w : Option MQTTPublishInfo)
    (remainingLength : Nat) (buffer : List Nat) : MQTTStatus × List Nat :=
  let rl := connectRemainingLength c w
  if remainingLength ≠ rl ∨ rl > MQTT_MAX_REMAINING_LENGTH then
    (.MQTTBadParameter, buffer)
  else
    let packetSize := 1 + remainingLengthEncodedSize rl + rl
    if buffer.length < packetSize then (.MQTTNoMemory, buffer)
    else (.MQTTSuccess, serializeConnectBytes c w rl ++ buffer.drop packetSize)

/-- Modelled from the spec (§6 wire format): Remaining Length of a SUBSCRIBE
packet: 2-byte packet identifier then, per entry, a length-prefixed topic
filter plus one QoS byte. -/
def subscribeRemainingLength (l : List MQTTSubscribeInfo) : Nat :=
  2 + l.foldr (fun s acc => 2 + s.pTopicFilter.length + 1 + acc) 0

/-- Modelled from the spec: `MQTT_GetSubscribePacketSize`.  Rejects an empty
subscription list and a Remaining Length beyond the varint range. -/
def MQTT_GetSubscribePacketSize (l : List MQTTSubscribeInfo) :
    MQTTStatus × Nat × Nat :=
  if l.isEmpty then (.MQTTBadParameter, 0, 0)
  else
    let rl := subscribeRemainingLength l
    if rl > MQTT_MAX_REMAINING_LENGTH then (.MQTTBadParameter, 0, 0)
    else (.MQTTSuccess, rl, 1 + remainingLengthEncodedSize rl + rl)

/-- Modelled from the spec (§6 wire format): serialized SUBSCRIBE payload
(the per-entry topic filters with their QoS bytes, in list order). -/
def subscribePayloadBytes (l : List MQTTSubscribeInfo) : List Nat :=
  l.foldr (fun s acc =>
    encodeU16 s.pTopicFilter.length ++ s.pTopicFilter ++ [s.qos.toNat] ++ acc) []

/-- Modelled from the spec (§6 wire format): full serialized byte list of a
SUBSCRIBE packet with Remaining Length `rl`. -/
def serializeSubscribeBytes (l : List MQTTSubscribeInfo) (packetId : Nat)
    (rl : Nat) : List Nat :=
  MQTT_PACKET_TYPE_SUBSCRIBE :: encodeRemainingLength rl
  ++ encodeU16 packetId ++ subscribePayloadBytes l

/-- Modelled from the spec: `MQTT_SerializeSubscribe`.  Requires a non-empty
list, a non-zero packet identifier (spec §4.3) and a `remainingLength`
matching the size calculator; checks capacity before writing. -/
def MQTT_SerializeSubscribe (l : List MQTTSubscribeInfo) (packetId : Nat)
    (remainingLength : Nat) (buffer : List Nat) : MQTTStatus × List Nat :=
  let rl := subscribeRemainingLength l
  if l.isEmpty ∨ packetId = 0 ∨ remainingLength ≠ rl
     ∨ rl > MQTT_MAX_REMAINING_LENGTH then
    (.MQTTBadParameter, buffer)
  else
    let packetSize := 1 + remainingLengthEncodedSize rl + rl
    if buffer.length < packetSize then (.MQTTNoMemory, buffer)
    else (.MQTTSuccess, serializeSubscribeBytes l packetId rl ++ buffer.drop packetSize)

/-- Modelled from the spec (§6 wire format): Remaining Length of an
UNSUBSCRIBE packet: 2-byte packet identifier then, per entry, a
length-prefixed topic filter (no QoS byte). -/
def unsubscribeRemainingLength (l : List MQTTSubscribeInfo) : Nat :=
  2 + l.foldr (fun s acc => 2 + s.pTopicFilter.length + acc) 0

/-- Modelled from the spec: `MQTT_GetUnsubscribePacketSize`. -/
def MQTT_GetUnsubscribePacketSize (l : List MQTTSubscribeInfo) :
    MQTTStatus × Nat × Nat :=
  if l.isEmpty then (.MQTTBadParameter, 0, 0)
  else
    let rl := unsubscribeRemainingLength l
    if rl > MQTT_MAX_REMAINING_LENGTH then (.MQTTBadParameter, 0, 0)
    else (.MQTTSuccess, rl, 1 + remainingLengthEncodedSize rl + rl)

/-- Modelled from the spec (§6 wire format): serialized UNSUBSCRIBE payload. -/
def unsubscribePayloadBytes (l : List MQTTSubscribeInfo) : List Nat :=
  l.foldr (fun s acc => encodeU16 s.pTopicFilter.length ++ s.pTopicFilter ++ acc) []

/-- Modelled from the spec (§6 wire format): full serialized byte list of an
UNSUBSCRIBE packet with Remaining Length `rl`. -/
def serializeUnsubscribeBytes (l : List MQTTSubscribeInfo) (packetId : Nat)
    (rl : Nat) : List Nat :=
  MQTT_PACKET_TYPE_UNSUBSCRIBE :: encodeRemainingLength rl
  ++ encodeU16 packetId ++ unsubscribePayloadBytes l

/-- Modelled from the spec: `MQTT_SerializeUnsubscribe`. -/
def MQTT_SerializeUnsubscribe (l : List MQTTSubscribeInfo) (packetId : Nat)
    (remainingLength : Nat) (buffer : List Nat) : MQTTStatus × List Nat :=
  let rl := unsubscribeRemainingLength l
  if l.isEmpty ∨ packetId = 0 ∨ remainingLength ≠ rl
     ∨ rl > MQTT_MAX_REMAINING_LENGTH then
    (.MQTTBadParameter, buffer)
  else
    let packetSize := 1 + remainingLengthEncodedSize rl + rl
    if buffer.length < packetSize then (.MQTTNoMemory, buffer)
    else (.MQTTSuccess, serializeUnsubscribeBytes l packetId rl ++ buffer.drop packetSize)

/-- Modelled from the spec (§6 wire format): Remaining Length of a PUBLISH
packet: length-prefixed topic name, a 2-byte packet identifier only when
QoS > 0, then the raw payload. -/
def publishRemainingLength (p : MQTTPublishInfo) : Nat :=
  2 + p.pTopicName.length + (if p.qos = .MQTTQoS0 then 0 else 2)
  + p.pPayload.length

/-- Modelled from the spec: `MQTT_GetPublishPacketSize`. -/
def MQTT_GetPublishPacketSize (p : MQTTPublishInfo) : MQTTStatus × Nat × Nat :=
  let rl := publishRemainingLength p
  if rl > MQTT_MAX_REMAINING_LENGTH then (.MQTTBadParameter, 0, 0)
  else (.MQTTSuccess, rl, 1 + remainingLengthEncodedSize rl + rl)

/-- Modelled from the spec (§6 wire format): the PUBLISH type-and-flags
byte: high nibble 3, DUP bit 3, QoS bits 2-1, RETAIN bit 0. -/
def publishHeaderByte (p : MQTTPublishInfo) : Nat :=
  MQTT_PACKET_TYPE_PUBLISH + (if p.dup then 8 else 0) + 2 * p.qos.toNat
  + (if p.retain then 1 else 0)

/-- Modelled from the spec (§6 wire format): full serialized byte list of a
PUBLISH packet with Remaining Length `rl`. -/
def serializePublishBytes (p : MQTTPublishInfo) (packetId : Nat)
    (rl : Nat) : List Nat :=
  publishHeaderByte p :: encodeRemainingLength rl
  ++ encodeU16 p.pTopicName.length ++ p.pTopicName
  ++ (if p.qos = .MQTTQoS0 then [] else encodeU16 packetId)
  ++ p.pPayload

/-- Modelled from the spec: `MQTT_SerializePublish`.  A zero packet
identifier is accepted only for QoS 0 (spec §4.3); `remainingLength` must
match the size calculator; capacity is checked before writing. -/
def MQTT_SerializePublish (p : MQTTPublishInfo) (packetId : Nat)
    (remainingLength : Nat) (buffer : List Nat) : MQTTStatus × List Nat :=
  let rl := publishRemainingLength p
  if (p.qos ≠ .MQTTQoS0 ∧ packetId = 0) ∨ remainingLength ≠ rl
     ∨ rl > MQTT_MAX_REMAINING_LENGTH then
    (.MQTTBadParameter, buffer)
  else
    let packetSize := 1 + remainingLengthEncodedSize rl + rl
    if buffer.length < packetSize then (.MQTTNoMemory, buffer)
    else (.MQTTSuccess, serializePublishBytes p packetId rl ++ buffer.drop packetSize)

/-- Modelled from the spec (§4.3): `MQTT_SerializeAck` handles
PUBACK/PUBREC/PUBREL/PUBCOMP uniformly as a fixed 4-byte packet
(caller-supplied type byte, Remaining Length 2, big-endian packet
identifier); the packet identifier must be non-zero and the type byte must
be one of the four acknowledgment types. -/
def MQTT_SerializeAck (buffer : List Nat) (packetType : Nat) (packetId : Nat) :
    MQTTStatus × List Nat :=
  if (packetType ≠ MQTT_PACKET_TYPE_PUBACK ∧ packetType ≠ MQTT_PACKET_TYPE_PUBREC
      ∧ packetType ≠ MQTT_PACKET_TYPE_PUBREL ∧ packetType ≠ MQTT_PACKET_TYPE_PUBCOMP)
     ∨ packetId = 0 then
    (.MQTTBadParameter, buffer)
  else if buffer.length < MQTT_PUBLISH_ACK_PACKET_SIZE then (.MQTTNoMemory, buffer)
  else (.MQTTSuccess,
        (packetType :: 2 :: encodeU16 packetId)
        ++ buffer.drop MQTT_PUBLISH_ACK_PACKET_SIZE)

/-- Modelled from the spec: `MQTT_GetDisconnectPacketSize` always succeeds
with the fixed 2-byte size. -/
def MQTT_GetDisconnectPacketSize : MQTTStatus × Nat :=
  (.MQTTSuccess, 2)

/-- Modelled from the spec: `MQTT_SerializeDisconnect` writes the fixed
2-byte packet (type byte, Remaining Length 0). -/
def MQTT_SerializeDisconnect (buffer : List Nat) : MQTTStatus × List Nat :=
  if buffer.length < 2 then (.MQTTNoMemory, buffer)
  else (.MQTTSuccess, [MQTT_PACKET_TYPE_DISCONNECT, 0] ++ buffer.drop 2)

/-- Modelled from the spec: `MQTT_SerializePingreq` writes the fixed 2-byte
packet (type byte, Remaining Length 0). -/
def MQTT_SerializePingreq (buffer : List Nat) : MQTTStatus × List Nat :=
  if buffer.length < MQTT_PACKET_PINGREQ_SIZE then (.MQTTNoMemory, buffer)
  else (.MQTTSuccess,
        [MQTT_PACKET_TYPE_PINGREQ, 0] ++ buffer.drop MQTT_PACKET_PINGREQ_SIZE)

/-- Modelled from the spec: `MQTT_DeserializePublish`.  The C out-parameters
`pPacketId` and `pPublishInfo` are modelled by passing their initial values
and returning their final values; on any failure they are returned
unchanged (spec §7: errors are reported before any output is populated).
Parses the length-prefixed topic name, the packet identifier (present iff
the QoS bits are non-zero) and takes the rest of the declared Remaining
Length as payload; QoS bits 3 and a topic length inconsistent with the
Remaining Length are `MQTTBadResponse`, a non-PUBLISH type byte is
`MQTTBadParameter`. -/
def MQTT_DeserializePublish (pkt : MQTTPacketInfo) (pidIn : Nat)
    (infoIn : MQTTPublishInfo) : MQTTStatus × Nat × MQTTPublishInfo :=
  if pkt.type / 16 ≠ 3 then (.MQTTBadParameter, pidIn, infoIn)
  else
    let q := pkt.type / 2 % 4
    if q = 3 then (.MQTTBadResponse, pidIn, infoIn)
    else
      let pidLen := if q = 0 then 0 else 2
      let data := pkt.pRemainingData.take pkt.remainingLength
      if pkt.remainingLength < 2 + pidLen then (.MQTTBadResponse, pidIn, infoIn)
      else
        let topicLen := data.getD 0 0 * 256 + data.getD 1 0
        if pkt.remainingLength < 2 + topicLen + pidLen then
          (.MQTTBadResponse, pidIn, infoIn)
        else
          let topic := (data.drop 2).take topicLen
          let afterTopic := data.drop (2 + topicLen)
          let pid := if q = 0 then pidIn
                     else afterTopic.getD 0 0 * 256 + afterTopic.getD 1 0
          let payload := data.drop (2 + topicLen + pidLen)
          (.MQTTSuccess, pid,
           ⟨qosOfNat q, pkt.type % 2 == 1, pkt.type / 8 % 2 == 1, topic, payload⟩)

/-- Modelled from the spec (§4.5): `MQTT_DeserializeAck`.  The out-parameters
`pPacketId` and `pSessionPresent` are modelled by passing their initial
values and returning their final values; each is written only for the
packet types that carry it (CONNACK: session-present flag and return code;
PINGRESP: no body; the acknowledgment types: a 2-byte packet identifier).
A Remaining Length inconsistent with the type is `MQTTBadResponse`; an
unrecognized type byte is `MQTTBadParameter`. -/
def MQTT_DeserializeAck (pkt : MQTTPacketInfo) (pidIn : Nat)
    (sessIn : Bool) : MQTTStatus × Nat × Bool :=
  if pkt.type = MQTT_PACKET_TYPE_CONNACK then
    if pkt.remainingLength ≠ 2 then (.MQTTBadResponse, pidIn, sessIn)
    else
      let sess := pkt.pRemainingData.getD 0 0 % 2 == 1
      if pkt.pRemainingData.getD 1 0 = 0 then (.MQTTSuccess, pidIn, sess)
      else (.MQTTServerRefused, pidIn, sess)
  else if pkt.type = MQTT_PACKET_TYPE_PINGRESP then
    if pkt.remainingLength ≠ 0 then (.MQTTBadResponse, pidIn, sessIn)
    else (.MQTTSuccess, pidIn, sessIn)
  else if pkt.type = MQTT_PACKET_TYPE_PUBACK ∨ pkt.type = MQTT_PACKET_TYPE_PUBREC
          ∨ pkt.type = MQTT_PACKET_TYPE_PUBREL ∨ pkt.type = MQTT_PACKET_TYPE_PUBCOMP
          ∨ pkt.type = MQTT_PACKET_TYPE_UNSUBACK then
    if pkt.remainingLength ≠ 2 then (.MQTTBadResponse, pidIn, sessIn)
    else (.MQTTSuccess,
          pkt.pRemainingData.getD 0 0 * 256 + pkt.pRemainingData.getD 1 0, sessIn)
  else if pkt.type = MQTT_PACKET_TYPE_SUBACK then
    if pkt.remainingLength < 3 then (.MQTTBadResponse, pidIn, sessIn)
    else (.MQTTSuccess,
          pkt.pRemainingData.getD 0 0 * 256 + pkt.pRemainingData.getD 1 0, sessIn)
  else (.MQTTBadParameter, pidIn, sessIn)

/-- Outcome of one invocation of the transport receive callback when asked
for a single byte: a byte was delivered, zero bytes were available, or the
callback reported a negative (error) result.  A list of these models the
caller-supplied `MQTTTransportRecvFunc_t` together with its network
context. -/
inductive RecvOutcome where
  | byte : Nat → RecvOutcome
  | empty
  | error
deriving DecidableEq, Repr

/-- Result of decoding the Remaining Length varint from the transport:
the decoded value together with the number of bytes consumed, a short read
(the callback returned zero bytes or an error mid-varint), or a malformed
encoding. -/
inductive RLDecode where
  | ok : Nat → Nat → RLDecode
  | shortRead
  | malformed
deriving DecidableEq, Repr

/-- Modelled from the spec (§4.1, §4.4): one step per received varint byte.
`count` bytes contributing `acc` (scaled by `pos = 128 ^ count`) have been
read so far; the fuel is the maximal varint width 4, so a 5th continuation
byte exhausts it and yields `malformed`.  A completed varint whose byte
count is not the minimal encoding size of its value is `malformed` (the
spec requires inbound validation to reject non-minimal encodings). -/
def decodeRLAux : Nat → List RecvOutcome → Nat → Nat → Nat → RLDecode
  | 0, _, _, _, _ => .malformed
  | fuel + 1, s, count, acc, pos =>
    match s with
    | [] => .shortRead
    | .empty :: _ => .shortRead
    | .error :: _ => .shortRead
    | .byte b :: rest =>
      let acc2 := acc + b % 128 * pos
      if b < 128 then
        if count + 1 = remainingLengthEncodedSize acc2 then .ok acc2 (count + 1)
        else .malformed
      else decodeRLAux fuel rest (count + 1) acc2 (pos * 128)

/-- Modelled from the spec: decode the Remaining Length varint from the
stream of single-byte receive outcomes. -/
def decodeRemainingLength (s : List RecvOutcome) : RLDecode :=
  decodeRLAux 4 s 0 0 1

/-- Modelled from the spec (§4.4 step 2): the closed set of legal incoming
type-and-flags bytes for a client: CONNACK, PUBLISH with any QoS/DUP/RETAIN
combination except QoS bits 3, PUBACK, PUBREC, PUBREL (with its mandatory
flag nibble), PUBCOMP, SUBACK, UNSUBACK, PINGRESP. -/
def incomingPacketTypeValid (b : Nat) : Bool :=
  b == MQTT_PACKET_TYPE_CONNACK
  || (b / 16 == 3 && b / 2 % 4 != 3)
  || b == MQTT_PACKET_TYPE_PUBACK
  || b == MQTT_PACKET_TYPE_PUBREC
  || b == MQTT_PACKET_TYPE_PUBREL
  || b == MQTT_PACKET_TYPE_PUBCOMP
  || b == MQTT_PACKET_TYPE_SUBACK
  || b == MQTT_PACKET_TYPE_UNSUBACK
  || b == MQTT_PACKET_TYPE_PINGRESP

/-- Modelled from the spec (§4.4): `MQTT_GetIncomingPacketTypeAndLength`.
The transport is the list of single-byte receive outcomes.  A zero-byte
result on the very first read is `MQTTNoDataAvailable`; a negative result
there is `MQTTRecvFailed`; an illegal type byte is `MQTTBadResponse`; while
decoding the Remaining Length, any short read is `MQTTRecvFailed` and a
malformed varint is `MQTTBadResponse`.  On success the descriptor carries
the type byte and decoded Remaining Length (the payload bytes themselves
are not fetched). -/
def MQTT_GetIncomingPacketTypeAndLength (s : List RecvOutcome) :
    MQTTStatus × MQTTPacketInfo :=
  match s with
  | [] => (.MQTTNoDataAvailable, ⟨0, [], 0⟩)
  | .empty :: _ => (.MQTTNoDataAvailable, ⟨0, [], 0⟩)
  | .error :: _ => (.MQTTRecvFailed, ⟨0, [], 0⟩)
  | .byte b :: rest =>
    if incomingPacketTypeValid b then
      match decodeRemainingLength rest with
      | .ok v _ => (.MQTTSuccess, ⟨b, [], v⟩)
      | .shortRead => (.MQTTRecvFailed, ⟨0, [], 0⟩)
      | .malformed => (.MQTTBadResponse, ⟨0, [], 0⟩)
    else (.MQTTBadResponse, ⟨0, [], 0⟩)

/-- The CONNECT parameters of the end-to-end scenario: clean session,
keep-alive 60 seconds, client identifier "dev1", no will, no credentials. -/
def connectInfoDev1 : MQTTConnectInfo :=
  ⟨true, 60, [100, 101, 118, 49], none, none⟩

/-- C10: the packet-type constants that already include the mandatory flag
nibble of MQTT 3.1.1 are exactly PUBREL = 0x62, SUBSCRIBE = 0x82 and
UNSUBSCRIBE = 0xA2; every other packet-type constant has a zero low
nibble. -/
theorem claim_C10_packet_type_flag_nibbles :
    MQTT_PACKET_TYPE_PUBREL = 0x62
    ∧ MQTT_PACKET_TYPE_SUBSCRIBE = 0x82
    ∧ MQTT_PACKET_TYPE_UNSUBSCRIBE = 0xA2
    ∧ MQTT_PACKET_TYPE_CONNECT % 16 = 0
    ∧ MQTT_PACKET_TYPE_CONNACK % 16 = 0
    ∧ MQTT_PACKET_TYPE_PUBLISH % 16 = 0
    ∧ MQTT_PACKET_TYPE_PUBACK % 16 = 0
    ∧ MQTT_PACKET_TYPE_PUBREC % 16 = 0
    ∧ MQTT_PACKET_TYPE_PUBCOMP % 16 = 0
    ∧ MQTT_PACKET_TYPE_SUBACK % 16 = 0
    ∧ MQTT_PACKET_TYPE_UNSUBACK % 16 = 0
    ∧ MQTT_PACKET_TYPE_PINGREQ % 16 = 0
    ∧ MQTT_PACKET_TYPE_PINGRESP % 16 = 0
    ∧ MQTT_PACKET_TYPE_DISCONNECT % 16 = 0 := by
  decide

/-- C4 (counterexample): on the scenario input the size calculator returns
remaining length 16 and packet size 18, not the 12 and 24 the claim
states; consequently the serialized packet's second byte (the Remaining
Length) is 0x10, not 0x16. -/
theorem claim_C4_counterexample :
    MQTT_GetConnectPacketSize connectInfoDev1 none = (.MQTTSuccess, 16, 18)
    ∧ MQTT_GetConnectPacketSize connectInfoDev1 none ≠ (.MQTTSuccess, 12, 24)
    ∧ (serializeConnectBytes connectInfoDev1 none 16).getD 1 0 ≠ 0x16 := by
  decide

/-- C4 (amended): for the ConnectInfo with cleanSession = true,
keepAliveSeconds = 60, clientIdentifier "dev1", no will and no
credentials, `MQTT_GetConnectPacketSize` returns success with
remainingLength 16 and packetSize 18, and `MQTT_SerializeConnect` produces
the bytes 0x10, 0x10 followed by 00 04 'M' 'Q' 'T' 'T' 04 0x02 00 3C 00 04
'd' 'e' 'v' '1'. -/
theorem claim_C4_connect_scenario :
    MQTT_GetConnectPacketSize connectInfoDev1 none = (.MQTTSuccess, 16, 18)
    ∧ MQTT_SerializeConnect connectInfoDev1 none 16 (List.replicate 18 0)
      = (.MQTTSuccess,
         [0x10, 0x10, 0x00, 0x04, 77, 81, 84, 84, 0x04, 0x02, 0x00, 0x3C,
          0x00, 0x04, 100, 101, 118, 49]) := by
  decide

/-- C8: `MQTT_SerializeAck` with packet type PUBACK (0x40) and packet ID 42,
given a buffer of capacity at least 4, succeeds and writes exactly the
4 bytes 0x40, 0x02, 0x00, 0x2A, leaving the rest of the buffer
unchanged. -/
theorem claim_C8_puback_bytes (buffer : List Nat) (h : 4 ≤ buffer.length) :
    MQTT_SerializeAck buffer MQTT_PACKET_TYPE_PUBACK 42
      = (.MQTTSuccess, [0x40, 0x02, 0x00, 0x2A] ++ buffer.drop 4) := by
  unfold MQTT_SerializeAck
  rw [if_neg (by simp [MQTT_PACKET_TYPE_PUBACK])]
  rw [if_neg (by
    unfold MQTT_PUBLISH_ACK_PACKET_SIZE
    omega)]
  simp [encodeU16, MQTT_PUBLISH_ACK_PACKET_SIZE, MQTT_PACKET_TYPE_PUBACK]

/-- Witness for C8 at the concrete buffer `[0, 0, 0, 0]`. -/
theorem claim_C8_puback_bytes_witness :
    4 ≤ ([0, 0, 0, 0] : List Nat).length
    ∧ MQTT_SerializeAck [0, 0, 0, 0] MQTT_PACKET_TYPE_PUBACK 42
      = (.MQTTSuccess, [0x40, 0x02, 0x00, 0x2A] ++ ([0, 0, 0, 0] : List Nat).drop 4) :=
  ⟨by decide, claim_C8_puback_bytes [0, 0, 0, 0] (by decide)⟩

/-- C9: `MQTT_DeserializeAck` returns the packet-identifier out-parameter
unchanged when the packet type is CONNACK or PINGRESP, and returns the
session-present out-parameter unchanged for every packet type other than
CONNACK. -/
theorem claim_C9_ack_out_params (pkt : MQTTPacketInfo) (pidIn : Nat) (sessIn : Bool) :
    ((pkt.type = MQTT_PACKET_TYPE_CONNACK ∨ pkt.type = MQTT_PACKET_TYPE_PINGRESP) →
      (MQTT_DeserializeAck pkt pidIn sessIn).2.1 = pidIn)
    ∧ (pkt.type ≠ MQTT_PACKET_TYPE_CONNACK →
      (MQTT_DeserializeAck pkt pidIn sessIn).2.2 = sessIn) := by
  unfold MQTT_DeserializeAck
  constructor
  · intro h
    split_ifs <;> simp_all [MQTT_PACKET_TYPE_CONNACK, MQTT_PACKET_TYPE_PINGRESP,
      MQTT_PACKET_TYPE_PUBACK, MQTT_PACKET_TYPE_PUBREC, MQTT_PACKET_TYPE_PUBREL,
      MQTT_PACKET_TYPE_PUBCOMP, MQTT_PACKET_TYPE_UNSUBACK, MQTT_PACKET_TYPE_SUBACK]
  · intro h
    split_ifs <;> simp_all
/-- Witness for C9 at a CONNACK descriptor (packet identifier preserved) and
a PUBACK descriptor (session flag preserved). -/
theorem claim_C9_ack_out_params_witness :
    (MQTT_DeserializeAck ⟨0x20, [0, 0], 2⟩ 7 false).2.1 = 7
    ∧ (MQTT_DeserializeAck ⟨0x40, [0, 1], 2⟩ 7 true).2.2 = true :=
  ⟨(claim_C9_ack_out_params ⟨0x20, [0, 0], 2⟩ 7 false).1 (Or.inl rfl),
   (claim_C9_ack_out_params ⟨0x40, [0, 1], 2⟩ 7 true).2 (by decide)⟩

theorem decodeRLAux_ok_minimal (fuel : Nat) :
    ∀ (s : List RecvOutcome) (count acc pos v n : Nat),
      decodeRLAux fuel s count acc pos = .ok v n →
      n = remainingLengthEncodedSize v := by
  induction fuel with
  | zero =>
    intro s count acc pos v n h
    simp [decodeRLAux] at h
  | succ k ih =>
    intro s count acc pos v n h
    match s with
    | [] => simp [decodeRLAux] at h
    | .empty :: rest => simp [decodeRLAux] at h
    | .error :: rest => simp [decodeRLAux] at h
    | .byte b :: rest =>
      simp only [decodeRLAux] at h
      by_cases hb : b < 128
      · rw [if_pos hb] at h
        by_cases hc : count + 1 = remainingLengthEncodedSize (acc + b % 128 * pos)
        · rw [if_pos hc] at h
          injection h with h1 h2
          subst h1; subst h2
          exact hc
        · rw [if_neg hc] at h
          exact absurd h (by simp)
      · rw [if_neg hb] at h
        exact ih rest (count + 1) (acc + b % 128 * pos) (pos * 128) v n h

/-- C5: the Remaining Length varint boundaries: 127 encodes in one byte
0x7F; 128 in the two bytes 0x80, 0x01; 16383 in two bytes; 16384 in three
bytes; 268435455 in four bytes; and every size calculator whose Remaining
Length would be 268435456 or more returns `MQTTBadParameter`. -/
theorem claim_C5_varint_boundaries :
    encodeRemainingLength 127 = [0x7F]
    ∧ encodeRemainingLength 128 = [0x80, 0x01]
    ∧ (encodeRemainingLength 16383).length = 2
    ∧ (encodeRemainingLength 16384).length = 3
    ∧ (encodeRemainingLength 268435455).length = 4
    ∧ (∀ c w, connectRemainingLength c w ≥ 268435456 →
        (MQTT_GetConnectPacketSize c w).1 = .MQTTBadParameter)
    ∧ (∀ l, subscribeRemainingLength l ≥ 268435456 →
        (MQTT_GetSubscribePacketSize l).1 = .MQTTBadParameter)
    ∧ (∀ l, unsubscribeRemainingLength l ≥ 268435456 →
        (MQTT_GetUnsubscribePacketSize l).1 = .MQTTBadParameter)
    ∧ (∀ p, publishRemainingLength p ≥ 268435456 →
        (MQTT_GetPublishPacketSize p).1 = .MQTTBadParameter) := by
  refine ⟨by decide, by decide, by decide, by decide, by decide, ?_, ?_, ?_, ?_⟩
  · intro c w h
    unfold MQTT_GetConnectPacketSize
    rw [if_pos (by unfold MQTT_MAX_REMAINING_LENGTH; omega)]
  · intro l h
    unfold MQTT_GetSubscribePacketSize
    by_cases he : l.isEmpty = true
    · rw [if_pos he]
    · rw [if_neg he, if_pos (by unfold MQTT_MAX_REMAINING_LENGTH; omega)]
  · intro l h
    unfold MQTT_GetUnsubscribePacketSize
    by_cases he : l.isEmpty = true
    · rw [if_pos he]
    · rw [if_neg he, if_pos (by unfold MQTT_MAX_REMAINING_LENGTH; omega)]
  · intro p h
    unfold MQTT_GetPublishPacketSize
    rw [if_pos (by unfold MQTT_MAX_REMAINING_LENGTH; omega)]

theorem connectRemainingLength_replicate (n : Nat) :
    connectRemainingLength ⟨true, 0, [], none, none⟩
      (some ⟨.MQTTQoS0, false, false, [], List.replicate n 0⟩) = 16 + n := by
  simp [connectRemainingLength]
  omega

theorem subscribeRemainingLength_replicate (n : Nat) :
    subscribeRemainingLength [⟨.MQTTQoS0, List.replicate n 0⟩] = 5 + n := by
  simp [subscribeRemainingLength]
  omega

theorem unsubscribeRemainingLength_replicate (n : Nat) :
    unsubscribeRemainingLength [⟨.MQTTQoS0, List.replicate n 0⟩] = 4 + n := by
  simp [unsubscribeRemainingLength]
  omega

theorem publishRemainingLength_replicate (n : Nat) :
    publishRemainingLength ⟨.MQTTQoS0, false, false, [], List.replicate n 0⟩
      = 2 + n := by
  simp [publishRemainingLength]

/-- Witness for C5: each of the four overflow conjuncts applied at a
concrete oversized input (a 268435456-byte will payload, subscription
topic filter, or publish payload). -/
theorem claim_C5_varint_boundaries_witness :
    (MQTT_GetConnectPacketSize ⟨true, 0, [], none, none⟩
      (some ⟨.MQTTQoS0, false, false, [], List.replicate 268435456 0⟩)).1
      = .MQTTBadParameter
    ∧ (MQTT_GetSubscribePacketSize
        [⟨.MQTTQoS0, List.replicate 268435456 0⟩]).1 = .MQTTBadParameter
    ∧ (MQTT_GetUnsubscribePacketSize
        [⟨.MQTTQoS0, List.replicate 268435456 0⟩]).1 = .MQTTBadParameter
    ∧ (MQTT_GetPublishPacketSize
        ⟨.MQTTQoS0, false, false, [], List.replicate 268435456 0⟩).1
      = .MQTTBadParameter :=
  ⟨claim_C5_varint_boundaries.2.2.2.2.2.1 _ _
      (by rw [connectRemainingLength_replicate]; omega),
   claim_C5_varint_boundaries.2.2.2.2.2.2.1 _
      (by rw [subscribeRemainingLength_replicate]; omega),
   claim_C5_varint_boundaries.2.2.2.2.2.2.2.1 _
      (by rw [unsubscribeRemainingLength_replicate]; omega),
   claim_C5_varint_boundaries.2.2.2.2.2.2.2.2 _
      (by rw [publishRemainingLength_replicate]; omega)⟩

/-- C6: a completed inbound Remaining Length decode always consumed exactly
the minimal number of bytes for its value (so any longer-than-minimal
encoding is rejected; in particular the two-byte encoding 0x80 0x00 of the
value 0 is malformed), while the encoder used by size calculation emits the
minimal encoding: decoding it back yields the value with exactly
`remainingLengthEncodedSize` bytes consumed. -/
theorem claim_C6_minimal_encoding :
    (∀ (s : List RecvOutcome) (v n : Nat),
      decodeRemainingLength s = .ok v n → n = remainingLengthEncodedSize v)
    ∧ decodeRemainingLength [.byte 0x80, .byte 0x00] = .malformed
    ∧ (∀ x, x ≤ MQTT_MAX_REMAINING_LENGTH →
        decodeRemainingLength ((encodeRemainingLength x).map RecvOutcome.byte)
          = .ok x (remainingLengthEncodedSize x)) := by
  refine ⟨?_, by decide, ?_⟩
  · intro s v n h
    exact decodeRLAux_ok_minimal 4 s 0 0 1 v n h
  · intro x hx
    unfold MQTT_MAX_REMAINING_LENGTH at hx
    by_cases h1 : x < 128
    · have hs : remainingLengthEncodedSize x = 1 := by
        unfold remainingLengthEncodedSize; rw [if_pos h1]
      rw [hs]
      simp only [encodeRemainingLength, encodeRLAux, if_pos h1]
      simp only [List.map_cons, List.map_nil, decodeRemainingLength, decodeRLAux]
      rw [if_pos h1]
      have hval : 0 + x % 128 * 1 = x := by omega
      rw [hval, hs]
      norm_num
    · by_cases h2 : x < 16384
      · have hb1 : ¬ x % 128 + 128 < 128 := by omega
        have hb2 : x / 128 < 128 := by omega
        have hs : remainingLengthEncodedSize x = 2 := by
          unfold remainingLengthEncodedSize; rw [if_neg h1, if_pos h2]
        rw [hs]
        simp only [encodeRemainingLength, encodeRLAux, if_neg h1]
        rw [if_pos hb2]
        simp only [List.map_cons, List.map_nil, decodeRemainingLength, decodeRLAux]
        rw [if_neg hb1, if_pos hb2]
        have hval : 0 + (x % 128 + 128) % 128 * 1 + x / 128 % 128 * (1 * 128) = x := by
          omega
        rw [hval, hs]
        norm_num
      · by_cases h3 : x < 2097152
        · have hd1 : ¬ x / 128 < 128 := by omega
          have hb3 : x / 128 / 128 < 128 := by omega
          have hb1 : ¬ x % 128 + 128 < 128 := by omega
          have hb2 : ¬ x / 128 % 128 + 128 < 128 := by omega
          have hs : remainingLengthEncodedSize x = 3 := by
            unfold remainingLengthEncodedSize; rw [if_neg h1, if_neg h2, if_pos h3]
          rw [hs]
          simp only [encodeRemainingLength, encodeRLAux, if_neg h1, if_neg hd1]
          rw [if_pos hb3]
          simp only [List.map_cons, List.map_nil, decodeRemainingLength, decodeRLAux]
          rw [if_neg hb1, if_neg hb2, if_pos hb3]
          have hval : 0 + (x % 128 + 128) % 128 * 1 + (x / 128 % 128 + 128) % 128 * (1 * 128)
              + x / 128 / 128 % 128 * (1 * 128 * 128) = x := by omega
          rw [hval, hs]
          norm_num
        · have hd1 : ¬ x / 128 < 128 := by omega
          have hd2 : ¬ x / 128 / 128 < 128 := by omega
          have hb4 : x / 128 / 128 / 128 < 128 := by omega
          have hb1 : ¬ x % 128 + 128 < 128 := by omega
          have hb2 : ¬ x / 128 % 128 + 128 < 128 := by omega
          have hb3 : ¬ x / 128 / 128 % 128 + 128 < 128 := by omega
          have hs : remainingLengthEncodedSize x = 4 := by
            unfold remainingLengthEncodedSize
            rw [if_neg h1, if_neg h2, if_neg h3]
          rw [hs]
          simp only [encodeRemainingLength, encodeRLAux, if_neg h1, if_neg hd1, if_neg hd2]
          rw [if_pos hb4]
          simp only [List.map_cons, List.map_nil, decodeRemainingLength, decodeRLAux]
          rw [if_neg hb1, if_neg hb2, if_neg hb3, if_pos hb4]
          have hval : 0 + (x % 128 + 128) % 128 * 1 + (x / 128 % 128 + 128) % 128 * (1 * 128)
              + (x / 128 / 128 % 128 + 128) % 128 * (1 * 128 * 128)
              + x / 128 / 128 / 128 % 128 * (1 * 128 * 128 * 128) = x := by omega
          rw [hval, hs]
          norm_num

/-- Witness for C6: the minimality conjunct applied to the completed decode
of the single byte 0x05 (one byte consumed, and one is the minimal size of
the value 5), and the round-trip conjunct applied at the value 200. -/
theorem claim_C6_minimal_encoding_witness :
    (1 = remainingLengthEncodedSize 5)
    ∧ decodeRemainingLength ((encodeRemainingLength 200).map RecvOutcome.byte)
      = .ok 200 (remainingLengthEncodedSize 200) :=
  ⟨claim_C6_minimal_encoding.1 [.byte 5] 5 1 (by decide),
   claim_C6_minimal_encoding.2.2 200 (by decide)⟩

/-- C7: `MQTT_GetIncomingPacketTypeAndLength` returns `MQTTNoDataAvailable`
when the receive callback reports zero bytes on the very first one-byte
read, `MQTTRecvFailed` when that first read reports a negative result, and
`MQTTRecvFailed` (not `MQTTNoDataAvailable`) for any short read while
decoding the subsequent Remaining Length bytes. -/
theorem claim_C7_reader_statuses :
    (∀ rest, (MQTT_GetIncomingPacketTypeAndLength (.empty :: rest)).1
      = .MQTTNoDataAvailable)
    ∧ (∀ rest, (MQTT_GetIncomingPacketTypeAndLength (.error :: rest)).1
      = .MQTTRecvFailed)
    ∧ (∀ b rest, incomingPacketTypeValid b = true →
        decodeRemainingLength rest = .shortRead →
        (MQTT_GetIncomingPacketTypeAndLength (.byte b :: rest)).1
          = .MQTTRecvFailed) := by
  refine ⟨fun rest => rfl, fun rest => rfl, ?_⟩
  intro b rest hb hs
  simp [MQTT_GetIncomingPacketTypeAndLength, hb, hs]

/-- Witness for C7: a valid CONNACK type byte followed by a zero-byte read
inside the Remaining Length yields `MQTTRecvFailed`. -/
theorem claim_C7_reader_statuses_witness :
    (MQTT_GetIncomingPacketTypeAndLength [.empty]).1 = .MQTTNoDataAvailable
    ∧ (MQTT_GetIncomingPacketTypeAndLength [.error]).1 = .MQTTRecvFailed
    ∧ (MQTT_GetIncomingPacketTypeAndLength [.byte 0x20, .empty]).1
      = .MQTTRecvFailed :=
  ⟨claim_C7_reader_statuses.1 [],
   claim_C7_reader_statuses.2.1 [],
   claim_C7_reader_statuses.2.2 0x20 [.empty] (by decide) (by decide)⟩

theorem getConnectPacketSize_success (c : MQTTConnectInfo)
    (w : Option MQTTPublishInfo) (rl ps : Nat)
    (h : MQTT_GetConnectPacketSize c w = (.MQTTSuccess, rl, ps)) :
    rl = connectRemainingLength c w
    ∧ ps = 1 + remainingLengthEncodedSize rl + rl
    ∧ rl ≤ MQTT_MAX_REMAINING_LENGTH := by
  unfold MQTT_GetConnectPacketSize at h
  by_cases hm : connectRemainingLength c w > MQTT_MAX_REMAINING_LENGTH
  · rw [if_pos hm] at h
    simp at h
  · rw [if_neg hm] at h
    simp only [Prod.mk.injEq] at h
    obtain ⟨-, h1, h2⟩ := h
    subst h1
    exact ⟨rfl, h2.symm, by omega⟩

theorem serializeConnectBytes_length (c : MQTTConnectInfo)
    (w : Option MQTTPublishInfo) (rl : Nat)
    (h : rl ≤ MQTT_MAX_REMAINING_LENGTH) :
    (serializeConnectBytes c w rl).length
      = 1 + remainingLengthEncodedSize rl + connectRemainingLength c w := by
  obtain ⟨cs, ka, cid, un, pw⟩ := c
  cases w <;> cases un <;> cases pw <;>
    simp [serializeConnectBytes, connectRemainingLength, encodeU16,
      encodeRemainingLength_length rl h] <;> omega

theorem getSubscribePacketSize_success (l : List MQTTSubscribeInfo) (rl ps : Nat)
    (h : MQTT_GetSubscribePacketSize l = (.MQTTSuccess, rl, ps)) :
    l.isEmpty = false
    ∧ rl = subscribeRemainingLength l
    ∧ ps = 1 + remainingLengthEncodedSize rl + rl
    ∧ rl ≤ MQTT_MAX_REMAINING_LENGTH := by
  unfold MQTT_GetSubscribePacketSize at h
  by_cases he : l.isEmpty = true
  · rw [if_pos he] at h
    simp at h
  · rw [if_neg he] at h
    by_cases hm : subscribeRemainingLength l > MQTT_MAX_REMAINING_LENGTH
    · rw [if_pos hm] at h
      simp at h
    · rw [if_neg hm] at h
      simp only [Prod.mk.injEq] at h
      obtain ⟨-, h1, h2⟩ := h
      subst h1
      exact ⟨by simpa using he, rfl, h2.symm, by omega⟩

theorem subscribePayloadBytes_length (l : List MQTTSubscribeInfo) :
    (subscribePayloadBytes l).length
      = l.foldr (fun s acc => 2 + s.pTopicFilter.length + 1 + acc) 0 := by
  induction l with
  | nil => rfl
  | cons s t ih =>
    simp [subscribePayloadBytes, encodeU16] at ih ⊢
    omega

theorem serializeSubscribeBytes_length (l : List MQTTSubscribeInfo)
    (pid rl : Nat) (h : rl ≤ MQTT_MAX_REMAINING_LENGTH) :
    (serializeSubscribeBytes l pid rl).length
      = 1 + remainingLengthEncodedSize rl + subscribeRemainingLength l := by
  simp [serializeSubscribeBytes, subscribeRemainingLength, encodeU16,
    encodeRemainingLength_length rl h, subscribePayloadBytes_length]
  omega

theorem getUnsubscribePacketSize_success (l : List MQTTSubscribeInfo) (rl ps : Nat)
    (h : MQTT_GetUnsubscribePacketSize l = (.MQTTSuccess, rl, ps)) :
    l.isEmpty = false
    ∧ rl = unsubscribeRemainingLength l
    ∧ ps = 1 + remainingLengthEncodedSize rl + rl
    ∧ rl ≤ MQTT_MAX_REMAINING_LENGTH := by
  unfold MQTT_GetUnsubscribePacketSize at h
  by_cases he : l.isEmpty = true
  · rw [if_pos he] at h
    simp at h
  · rw [if_neg he] at h
    by_cases hm : unsubscribeRemainingLength l > MQTT_MAX_REMAINING_LENGTH
    · rw [if_pos hm] at h
      simp at h
    · rw [if_neg hm] at h
      simp only [Prod.mk.injEq] at h
      obtain ⟨-, h1, h2⟩ := h
      subst h1
      exact ⟨by simpa using he, rfl, h2.symm, by omega⟩

theorem unsubscribePayloadBytes_length (l : List MQTTSubscribeInfo) :
    (unsubscribePayloadBytes l).length
      = l.foldr (fun s acc => 2 + s.pTopicFilter.length + acc) 0 := by
  induction l with
  | nil => rfl
  | cons s t ih =>
    simp [unsubscribePayloadBytes, encodeU16] at ih ⊢
    omega

theorem serializeUnsubscribeBytes_length (l : List MQTTSubscribeInfo)
    (pid rl : Nat) (h : rl ≤ MQTT_MAX_REMAINING_LENGTH) :
    (serializeUnsubscribeBytes l pid rl).length
      = 1 + remainingLengthEncodedSize rl + unsubscribeRemainingLength l := by
  simp [serializeUnsubscribeBytes, unsubscribeRemainingLength, encodeU16,
    encodeRemainingLength_length rl h, unsubscribePayloadBytes_length]
  omega

theorem getPublishPacketSize_success (p : MQTTPublishInfo) (rl ps : Nat)
    (h : MQTT_GetPublishPacketSize p = (.MQTTSuccess, rl, ps)) :
    rl = publishRemainingLength p
    ∧ ps = 1 + remainingLengthEncodedSize rl + rl
    ∧ rl ≤ MQTT_MAX_REMAINING_LENGTH := by
  unfold MQTT_GetPublishPacketSize at h
  by_cases hm : publishRemainingLength p > MQTT_MAX_REMAINING_LENGTH
  · rw [if_pos hm] at h
    simp at h
  · rw [if_neg hm] at h
    simp only [Prod.mk.injEq] at h
    obtain ⟨-, h1, h2⟩ := h
    subst h1
    exact ⟨rfl, h2.symm, by omega⟩

theorem serializePublishBytes_length (p : MQTTPublishInfo)
    (pid rl : Nat) (h : rl ≤ MQTT_MAX_REMAINING_LENGTH) :
    (serializePublishBytes p pid rl).length
      = 1 + remainingLengthEncodedSize rl + publishRemainingLength p := by
  by_cases hq : p.qos = .MQTTQoS0 <;>
    simp [serializePublishBytes, publishRemainingLength, encodeU16, hq,
      encodeRemainingLength_length rl h] <;> omega

/-- C1: for every valid input, the bytes a serializer writes equal the
`packetSize` reported by its paired size calculator: each serializer with a
paired size calculator (CONNECT, SUBSCRIBE, UNSUBSCRIBE, PUBLISH,
DISCONNECT), given the calculator's successful `remainingLength` /
`packetSize` output and a buffer of sufficient capacity, succeeds, fills
exactly the first `packetSize` bytes of the buffer with the packet and
leaves the rest unchanged. -/
theorem claim_C1_size_agreement :
    (∀ (c : MQTTConnectInfo) (w : Option MQTTPublishInfo) (rl ps : Nat)
       (buffer : List Nat),
      MQTT_GetConnectPacketSize c w = (.MQTTSuccess, rl, ps) →
      ps ≤ buffer.length →
      MQTT_SerializeConnect c w rl buffer
        = (.MQTTSuccess, serializeConnectBytes c w rl ++ buffer.drop ps)
      ∧ (serializeConnectBytes c w rl).length = ps)
    ∧ (∀ (l : List MQTTSubscribeInfo) (pid rl ps : Nat) (buffer : List Nat),
      MQTT_GetSubscribePacketSize l = (.MQTTSuccess, rl, ps) →
      pid ≠ 0 →
      ps ≤ buffer.length →
      MQTT_SerializeSubscribe l pid rl buffer
        = (.MQTTSuccess, serializeSubscribeBytes l pid rl ++ buffer.drop ps)
      ∧ (serializeSubscribeBytes l pid rl).length = ps)
    ∧ (∀ (l : List MQTTSubscribeInfo) (pid rl ps : Nat) (buffer : List Nat),
      MQTT_GetUnsubscribePacketSize l = (.MQTTSuccess, rl, ps) →
      pid ≠ 0 →
      ps ≤ buffer.length →
      MQTT_SerializeUnsubscribe l pid rl buffer
        = (.MQTTSuccess, serializeUnsubscribeBytes l pid rl ++ buffer.drop ps)
      ∧ (serializeUnsubscribeBytes l pid rl).length = ps)
    ∧ (∀ (p : MQTTPublishInfo) (pid rl ps : Nat) (buffer : List Nat),
      MQTT_GetPublishPacketSize p = (.MQTTSuccess, rl, ps) →
      (p.qos ≠ .MQTTQoS0 → pid ≠ 0) →
      ps ≤ buffer.length →
      MQTT_SerializePublish p pid rl buffer
        = (.MQTTSuccess, serializePublishBytes p pid rl ++ buffer.drop ps)
      ∧ (serializePublishBytes p pid rl).length = ps)
    ∧ (∀ buffer : List Nat,
      (MQTT_GetDisconnectPacketSize).2 ≤ buffer.length →
      MQTT_SerializeDisconnect buffer
        = (.MQTTSuccess,
           [MQTT_PACKET_TYPE_DISCONNECT, 0]
             ++ buffer.drop (MQTT_GetDisconnectPacketSize).2)
      ∧ ([MQTT_PACKET_TYPE_DISCONNECT, 0] : List Nat).length
        = (MQTT_GetDisconnectPacketSize).2) := by
  refine ⟨?_, ?_, ?_, ?_, ?_⟩
  · intro c w rl ps buffer hsz hlen
    obtain ⟨hrl, hps, hmax⟩ := getConnectPacketSize_success c w rl ps hsz
    subst hrl
    constructor
    · simp only [MQTT_SerializeConnect]
      rw [if_neg (by
        intro hor
        rcases hor with h | h
        · exact h rfl
        · omega)]
      rw [if_neg (by omega)]
      rw [hps]
    · rw [serializeConnectBytes_length c w _ hmax]
      omega
  · intro l pid rl ps buffer hsz hpid hlen
    obtain ⟨he, hrl, hps, hmax⟩ := getSubscribePacketSize_success l rl ps hsz
    subst hrl
    constructor
    · simp only [MQTT_SerializeSubscribe]
      rw [if_neg (by
        intro hor
        rcases hor with h | h | h | h
        · simp [he] at h
        · exact hpid h
        · exact h rfl
        · omega)]
      rw [if_neg (by omega)]
      rw [hps]
    · rw [serializeSubscribeBytes_length l pid _ hmax]
      omega
  · intro l pid rl ps buffer hsz hpid hlen
    obtain ⟨he, hrl, hps, hmax⟩ := getUnsubscribePacketSize_success l rl ps hsz
    subst hrl
    constructor
    · simp only [MQTT_SerializeUnsubscribe]
      rw [if_neg (by
        intro hor
        rcases hor with h | h | h | h
        · simp [he] at h
        · exact hpid h
        · exact h rfl
        · omega)]
      rw [if_neg (by omega)]
      rw [hps]
    · rw [serializeUnsubscribeBytes_length l pid _ hmax]
      omega
  · intro p pid rl ps buffer hsz hpid hlen
    obtain ⟨hrl, hps, hmax⟩ := getPublishPacketSize_success p rl ps hsz
    subst hrl
    constructor
    · simp only [MQTT_SerializePublish]
      rw [if_neg (by
        intro hor
        rcases hor with ⟨hq, h0⟩ | h | h
        · exact hpid hq h0
        · exact h rfl
        · omega)]
      rw [if_neg (by omega)]
      rw [hps]
    · rw [serializePublishBytes_length p pid _ hmax]
      omega
  · intro buffer hlen
    constructor
    · simp only [MQTT_SerializeDisconnect, MQTT_GetDisconnectPacketSize]
      rw [if_neg (by simp only [MQTT_GetDisconnectPacketSize] at hlen; omega)]
    · rfl

/-- Witness for C1: each conjunct instantiated at a concrete valid packet
and an exactly-sized buffer. -/
theorem claim_C1_size_agreement_witness :
    (MQTT_SerializeConnect ⟨true, 60, [100, 101, 118, 49], none, none⟩ none 16
        (List.replicate 18 7)
      = (.MQTTSuccess,
         serializeConnectBytes ⟨true, 60, [100, 101, 118, 49], none, none⟩ none 16
           ++ (List.replicate 18 7).drop 18)
      ∧ (serializeConnectBytes ⟨true, 60, [100, 101, 118, 49], none, none⟩
          none 16).length = 18)
    ∧ (MQTT_SerializeSubscribe [⟨.MQTTQoS1, [97]⟩] 1 6 (List.replicate 8 7)
      = (.MQTTSuccess,
         serializeSubscribeBytes [⟨.MQTTQoS1, [97]⟩] 1 6
           ++ (List.replicate 8 7).drop 8)
      ∧ (serializeSubscribeBytes [⟨.MQTTQoS1, [97]⟩] 1 6).length = 8)
    ∧ (MQTT_SerializeUnsubscribe [⟨.MQTTQoS1, [97]⟩] 1 5 (List.replicate 7 7)
      = (.MQTTSuccess,
         serializeUnsubscribeBytes [⟨.MQTTQoS1, [97]⟩] 1 5
           ++ (List.replicate 7 7).drop 7)
      ∧ (serializeUnsubscribeBytes [⟨.MQTTQoS1, [97]⟩] 1 5).length = 7)
    ∧ (MQTT_SerializePublish ⟨.MQTTQoS0, false, false, [97], [98]⟩ 0 4
        (List.replicate 6 7)
      = (.MQTTSuccess,
         serializePublishBytes ⟨.MQTTQoS0, false, false, [97], [98]⟩ 0 4
           ++ (List.replicate 6 7).drop 6)
      ∧ (serializePublishBytes ⟨.MQTTQoS0, false, false, [97], [98]⟩ 0 4).length = 6)
    ∧ (MQTT_SerializeDisconnect (List.replicate 2 7)
      = (.MQTTSuccess,
         [MQTT_PACKET_TYPE_DISCONNECT, 0]
           ++ (List.replicate 2 7).drop (MQTT_GetDisconnectPacketSize).2)
      ∧ ([MQTT_PACKET_TYPE_DISCONNECT, 0] : List Nat).length
        = (MQTT_GetDisconnectPacketSize).2) :=
  ⟨claim_C1_size_agreement.1 _ none 16 18 _ (by decide) (by decide),
   claim_C1_size_agreement.2.1 _ 1 6 8 _ (by decide) (by decide) (by decide),
   claim_C1_size_agreement.2.2.1 _ 1 5 7 _ (by decide) (by decide) (by decide),
   claim_C1_size_agreement.2.2.2.1 _ 0 4 6 _ (by decide) (by decide) (by decide),
   claim_C1_size_agreement.2.2.2.2 _ (by decide)⟩

/-- C3: for every valid packet whose computed total size is `N`, every
serializer called with a buffer of capacity less than `N` returns
`MQTTNoMemory` and leaves every byte of the buffer unchanged (the capacity
check precedes any write; DISCONNECT, PINGREQ and the ACK family use their
fixed sizes 2, 2 and 4). -/
theorem claim_C3_no_partial_write :
    (∀ (c : MQTTConnectInfo) (w : Option MQTTPublishInfo) (rl ps : Nat)
       (buffer : List Nat),
      MQTT_GetConnectPacketSize c w = (.MQTTSuccess, rl, ps) →
      buffer.length < ps →
      MQTT_SerializeConnect c w rl buffer = (.MQTTNoMemory, buffer))
    ∧ (∀ (l : List MQTTSubscribeInfo) (pid rl ps : Nat) (buffer : List Nat),
      MQTT_GetSubscribePacketSize l = (.MQTTSuccess, rl, ps) →
      pid ≠ 0 →
      buffer.length < ps →
      MQTT_SerializeSubscribe l pid rl buffer = (.MQTTNoMemory, buffer))
    ∧ (∀ (l : List MQTTSubscribeInfo) (pid rl ps : Nat) (buffer : List Nat),
      MQTT_GetUnsubscribePacketSize l = (.MQTTSuccess, rl, ps) →
      pid ≠ 0 →
      buffer.length < ps →
      MQTT_SerializeUnsubscribe l pid rl buffer = (.MQTTNoMemory, buffer))
    ∧ (∀ (p : MQTTPublishInfo) (pid rl ps : Nat) (buffer : List Nat),
      MQTT_GetPublishPacketSize p = (.MQTTSuccess, rl, ps) →
      (p.qos ≠ .MQTTQoS0 → pid ≠ 0) →
      buffer.length < ps →
      MQTT_SerializePublish p pid rl buffer = (.MQTTNoMemory, buffer))
    ∧ (∀ (t pid : Nat) (buffer : List Nat),
      (t = MQTT_PACKET_TYPE_PUBACK ∨ t = MQTT_PACKET_TYPE_PUBREC
        ∨ t = MQTT_PACKET_TYPE_PUBREL ∨ t = MQTT_PACKET_TYPE_PUBCOMP) →
      pid ≠ 0 →
      buffer.length < MQTT_PUBLISH_ACK_PACKET_SIZE →
      MQTT_SerializeAck buffer t pid = (.MQTTNoMemory, buffer))
    ∧ (∀ buffer : List Nat,
      buffer.length < (MQTT_GetDisconnectPacketSize).2 →
      MQTT_SerializeDisconnect buffer = (.MQTTNoMemory, buffer))
    ∧ (∀ buffer : List Nat,
      buffer.length < MQTT_PACKET_PINGREQ_SIZE →
      MQTT_SerializePingreq buffer = (.MQTTNoMemory, buffer)) := by
  refine ⟨?_, ?_, ?_, ?_, ?_, ?_, ?_⟩
  · intro c w rl ps buffer hsz hlen
    obtain ⟨hrl, hps, hmax⟩ := getConnectPacketSize_success c w rl ps hsz
    subst hrl
    simp only [MQTT_SerializeConnect]
    rw [if_neg (by
      intro hor
      rcases hor with h | h
      · exact h rfl
      · omega)]
    rw [if_pos (by omega)]
  · intro l pid rl ps buffer hsz hpid hlen
    obtain ⟨he, hrl, hps, hmax⟩ := getSubscribePacketSize_success l rl ps hsz
    subst hrl
    simp only [MQTT_SerializeSubscribe]
    rw [if_neg (by
      intro hor
      rcases hor with h | h | h | h
      · simp [he] at h
      · exact hpid h
      · exact h rfl
      · omega)]
    rw [if_pos (by omega)]
  · intro l pid rl ps buffer hsz hpid hlen
    obtain ⟨he, hrl, hps, hmax⟩ := getUnsubscribePacketSize_success l rl ps hsz
    subst hrl
    simp only [MQTT_SerializeUnsubscribe]
    rw [if_neg (by
      intro hor
      rcases hor with h | h | h | h
      · simp [he] at h
      · exact hpid h
      · exact h rfl
      · omega)]
    rw [if_pos (by omega)]
  · intro p pid rl ps buffer hsz hpid hlen
    obtain ⟨hrl, hps, hmax⟩ := getPublishPacketSize_success p rl ps hsz
    subst hrl
    simp only [MQTT_SerializePublish]
    rw [if_neg (by
      intro hor
      rcases hor with ⟨hq, h0⟩ | h | h
      · exact hpid hq h0
      · exact h rfl
      · omega)]
    rw [if_pos (by omega)]
  · intro t pid buffer ht hpid hlen
    simp only [MQTT_SerializeAck]
    rw [if_neg (by
      intro hor
      rcases hor with ⟨h1, h2, h3, h4⟩ | h
      · rcases ht with h | h | h | h
        · exact h1 h
        · exact h2 h
        · exact h3 h
        · exact h4 h
      · exact hpid h)]
    rw [if_pos hlen]
  · intro buffer hlen
    simp only [MQTT_SerializeDisconnect]
    rw [if_pos (by simp only [MQTT_GetDisconnectPacketSize] at hlen; omega)]
  · intro buffer hlen
    simp only [MQTT_SerializePingreq]
    rw [if_pos hlen]

/-- Witness for C3: each conjunct instantiated at a concrete valid packet
with a buffer one byte too small, left unchanged. -/
theorem claim_C3_no_partial_write_witness :
    MQTT_SerializeConnect ⟨true, 60, [100, 101, 118, 49], none, none⟩ none 16
      (List.replicate 17 9) = (.MQTTNoMemory, List.replicate 17 9)
    ∧ MQTT_SerializeSubscribe [⟨.MQTTQoS1, [97]⟩] 1 6 (List.replicate 7 9)
      = (.MQTTNoMemory, List.replicate 7 9)
    ∧ MQTT_SerializeUnsubscribe [⟨.MQTTQoS1, [97]⟩] 1 5 (List.replicate 6 9)
      = (.MQTTNoMemory, List.replicate 6 9)
    ∧ MQTT_SerializePublish ⟨.MQTTQoS0, false, false, [97], [98]⟩ 0 4
        (List.replicate 5 9) = (.MQTTNoMemory, List.replicate 5 9)
    ∧ MQTT_SerializeAck (List.replicate 3 9) MQTT_PACKET_TYPE_PUBACK 1
      = (.MQTTNoMemory, List.replicate 3 9)
    ∧ MQTT_SerializeDisconnect [9] = (.MQTTNoMemory, [9])
    ∧ MQTT_SerializePingreq [9] = (.MQTTNoMemory, [9]) :=
  ⟨claim_C3_no_partial_write.1 _ none 16 18 _ (by decide) (by decide),
   claim_C3_no_partial_write.2.1 _ 1 6 8 _ (by decide) (by decide) (by decide),
   claim_C3_no_partial_write.2.2.1 _ 1 5 7 _ (by decide) (by decide) (by decide),
   claim_C3_no_partial_write.2.2.2.1 _ 0 4 6 _ (by decide) (by decide) (by decide),
   claim_C3_no_partial_write.2.2.2.2.1 _ 1 _ (by decide) (by decide) (by decide),
   claim_C3_no_partial_write.2.2.2.2.2.1 _ (by decide),
   claim_C3_no_partial_write.2.2.2.2.2.2 _ (by decide)⟩

theorem publishHeaderByte_div16 (p : MQTTPublishInfo) :
    publishHeaderByte p / 16 = 3 := by
  obtain ⟨q, rt, dp, tn, pl⟩ := p
  cases q <;> cases rt <;> cases dp <;>
    simp [publishHeaderByte, MQTT_PACKET_TYPE_PUBLISH, MQTTQoS.toNat]

theorem publishHeaderByte_qos_bits (p : MQTTPublishInfo) :
    publishHeaderByte p / 2 % 4 = p.qos.toNat := by
  obtain ⟨q, rt, dp, tn, pl⟩ := p
  cases q <;> cases rt <;> cases dp <;>
    simp [publishHeaderByte, MQTT_PACKET_TYPE_PUBLISH, MQTTQoS.toNat]

theorem publishHeaderByte_retain (p : MQTTPublishInfo) :
    (publishHeaderByte p % 2 == 1) = p.retain := by
  obtain ⟨q, rt, dp, tn, pl⟩ := p
  cases q <;> cases rt <;> cases dp <;>
    simp [publishHeaderByte, MQTT_PACKET_TYPE_PUBLISH, MQTTQoS.toNat]

theorem publishHeaderByte_dup (p : MQTTPublishInfo) :
    (publishHeaderByte p / 8 % 2 == 1) = p.dup := by
  obtain ⟨q, rt, dp, tn, pl⟩ := p
  cases q <;> cases rt <;> cases dp <;>
    simp [publishHeaderByte, MQTT_PACKET_TYPE_PUBLISH, MQTTQoS.toNat]

theorem drop_two_cons (a b : Nat) (r : List Nat) (k : Nat) :
    (a :: b :: r).drop (2 + k) = r.drop k := by
  rw [show 2 + k = k + 1 + 1 by omega]
  rw [List.drop_succ_cons, List.drop_succ_cons]

theorem deserializePublish_of_serialized (p : MQTTPublishInfo) (pid : Nat)
    (htopic : p.pTopicName.length < 65536) (hpid : pid < 65536) :
    MQTT_DeserializePublish
      ⟨publishHeaderByte p,
       encodeU16 p.pTopicName.length ++ p.pTopicName
         ++ (if p.qos = .MQTTQoS0 then [] else encodeU16 pid) ++ p.pPayload,
       publishRemainingLength p⟩
      0 ⟨.MQTTQoS0, false, false, [], []⟩
    = (.MQTTSuccess, (if p.qos = .MQTTQoS0 then 0 else pid), p) := by
  obtain ⟨q, rt, dp, tn, pl⟩ := p
  dsimp only at htopic
  cases q
  case MQTTQoS0 =>
    dsimp only
    rw [show (if MQTTQoS.MQTTQoS0 = MQTTQoS.MQTTQoS0 then ([] : List Nat)
        else encodeU16 pid) = [] from rfl]
    rw [show (if MQTTQoS.MQTTQoS0 = MQTTQoS.MQTTQoS0 then (0 : Nat) else pid)
        = 0 from rfl]
    simp only [MQTT_DeserializePublish]
    rw [if_neg (by rw [publishHeaderByte_div16]; omega)]
    rw [publishHeaderByte_qos_bits]
    have hdata : List.take
        (publishRemainingLength ⟨.MQTTQoS0, rt, dp, tn, pl⟩)
        (encodeU16 tn.length ++ tn ++ [] ++ pl)
        = (tn.length / 256 % 256) :: (tn.length % 256) :: (tn ++ pl) := by
      rw [List.take_of_length_le
        (by simp [publishRemainingLength, encodeU16]; omega)]
      simp [encodeU16]
    rw [hdata]
    simp only [List.getD_cons_zero, List.getD_cons_succ, MQTTQoS.toNat,
      publishRemainingLength, if_true, if_false]
    rw [show tn.length / 256 % 256 * 256 + tn.length % 256 = tn.length by omega]
    rw [if_neg (by omega)]
    rw [if_neg (by omega), if_neg (by omega)]
    rw [publishHeaderByte_retain, publishHeaderByte_dup]
    rw [show List.drop 2 (tn.length / 256 % 256 :: tn.length % 256 :: (tn ++ pl))
        = tn ++ pl from rfl]
    rw [List.take_left]
    rw [show (2 + tn.length + 0) = 2 + tn.length by omega, drop_two_cons,
      List.drop_left]
    rfl
  case MQTTQoS1 =>
    dsimp only
    rw [show (if MQTTQoS.MQTTQoS1 = MQTTQoS.MQTTQoS0 then ([] : List Nat)
        else encodeU16 pid) = encodeU16 pid from rfl]
    rw [show (if MQTTQoS.MQTTQoS1 = MQTTQoS.MQTTQoS0 then (0 : Nat) else pid)
        = pid from rfl]
    simp only [MQTT_DeserializePublish]
    rw [if_neg (by rw [publishHeaderByte_div16]; omega)]
    rw [publishHeaderByte_qos_bits]
    have hdata : List.take
        (publishRemainingLength ⟨.MQTTQoS1, rt, dp, tn, pl⟩)
        (encodeU16 tn.length ++ tn ++ encodeU16 pid ++ pl)
        = (tn.length / 256 % 256) :: (tn.length % 256)
          :: (tn ++ ((pid / 256 % 256) :: (pid % 256) :: pl)) := by
      rw [List.take_of_length_le
        (by simp [publishRemainingLength, encodeU16]; omega)]
      simp [encodeU16]
    rw [hdata]
    simp only [List.getD_cons_zero, List.getD_cons_succ, MQTTQoS.toNat,
      publishRemainingLength, if_true, if_false]
    rw [show tn.length / 256 % 256 * 256 + tn.length % 256 = tn.length by omega]
    rw [show (if (1 : Nat) = 0 then (0 : Nat) else 2) = 2 from rfl]
    rw [show (if MQTTQoS.MQTTQoS1 = MQTTQoS.MQTTQoS0 then (0 : Nat) else 2)
        = 2 from rfl]
    rw [if_neg (by omega)]
    rw [if_neg (by omega), if_neg (by omega)]
    rw [publishHeaderByte_retain, publishHeaderByte_dup]
    rw [show List.drop 2 (tn.length / 256 % 256 :: tn.length % 256
        :: (tn ++ ((pid / 256 % 256) :: (pid % 256) :: pl)))
        = tn ++ ((pid / 256 % 256) :: (pid % 256) :: pl) from rfl]
    rw [List.take_left]
    rw [drop_two_cons, List.drop_left]
    rw [show (2 + tn.length + 2) = 2 + (tn.length + 2) by omega, drop_two_cons]
    rw [← List.drop_drop, List.drop_left]
    rw [show List.drop 2 ((pid / 256 % 256) :: (pid % 256) :: pl) = pl from rfl]
    simp only [List.getD_cons_zero, List.getD_cons_succ]
    rw [show pid / 256 % 256 * 256 + pid % 256 = pid by omega]
    rfl
  case MQTTQoS2 =>
    dsimp only
    rw [show (if MQTTQoS.MQTTQoS2 = MQTTQoS.MQTTQoS0 then ([] : List Nat)
        else encodeU16 pid) = encodeU16 pid from rfl]
    rw [show (if MQTTQoS.MQTTQoS2 = MQTTQoS.MQTTQoS0 then (0 : Nat) else pid)
        = pid from rfl]
    simp only [MQTT_DeserializePublish]
    rw [if_neg (by rw [publishHeaderByte_div16]; omega)]
    rw [publishHeaderByte_qos_bits]
    have hdata : List.take
        (publishRemainingLength ⟨.MQTTQoS2, rt, dp, tn, pl⟩)
        (encodeU16 tn.length ++ tn ++ encodeU16 pid ++ pl)
        = (tn.length / 256 % 256) :: (tn.length % 256)
          :: (tn ++ ((pid / 256 % 256) :: (pid % 256) :: pl)) := by
      rw [List.take_of_length_le
        (by simp [publishRemainingLength, encodeU16]; omega)]
      simp [encodeU16]
    rw [hdata]
    simp only [List.getD_cons_zero, List.getD_cons_succ, MQTTQoS.toNat,
      publishRemainingLength, if_true, if_false]
    rw [show tn.length / 256 % 256 * 256 + tn.length % 256 = tn.length by omega]
    rw [show (if (2 : Nat) = 0 then (0 : Nat) else 2) = 2 from rfl]
    rw [show (if MQTTQoS.MQTTQoS2 = MQTTQoS.MQTTQoS0 then (0 : Nat) else 2)
        = 2 from rfl]
    rw [if_neg (by omega)]
    rw [if_neg (by omega), if_neg (by omega)]
    rw [publishHeaderByte_retain, publishHeaderByte_dup]
    rw [show List.drop 2 (tn.length / 256 % 256 :: tn.length % 256
        :: (tn ++ ((pid / 256 % 256) :: (pid % 256) :: pl)))
        = tn ++ ((pid / 256 % 256) :: (pid % 256) :: pl) from rfl]
    rw [List.take_left]
    rw [drop_two_cons, List.drop_left]
    rw [show (2 + tn.length + 2) = 2 + (tn.length + 2) by omega, drop_two_cons]
    rw [← List.drop_drop, List.drop_left]
    rw [show List.drop 2 ((pid / 256 % 256) :: (pid % 256) :: pl) = pl from rfl]
    simp only [List.getD_cons_zero, List.getD_cons_succ]
    rw [show pid / 256 % 256 * 256 + pid % 256 = pid by omega]
    rfl

/-- C2: for every valid publish descriptor (16-bit topic length and packet
identifier, non-zero packet identifier when QoS > 0, packet within the
varint size ceiling), serializing with `MQTT_SerializePublish` into an
exactly-sized buffer produces the packet bytes, and deserializing those
bytes with `MQTT_DeserializePublish` (type byte = first serialized byte,
remaining data = the bytes after the fixed header) succeeds and yields a
publish structure equal to the input in every wire-format-meaningful field
(QoS, retain, dup, topic name, payload) and the same packet identifier
(for QoS 0 no identifier is on the wire and the out-parameter, passed in
as 0, is unchanged). -/
theorem claim_C2_publish_roundtrip (p : MQTTPublishInfo) (pid : Nat)
    (htopic : p.pTopicName.length < 65536)
    (hpid : pid < 65536)
    (hq : p.qos ≠ .MQTTQoS0 → pid ≠ 0)
    (hmax : publishRemainingLength p ≤ MQTT_MAX_REMAINING_LENGTH) :
    MQTT_SerializePublish p pid (publishRemainingLength p)
        (List.replicate (1 + remainingLengthEncodedSize (publishRemainingLength p)
          + publishRemainingLength p) 0)
      = (.MQTTSuccess, serializePublishBytes p pid (publishRemainingLength p))
    ∧ MQTT_DeserializePublish
        ⟨(serializePublishBytes p pid (publishRemainingLength p)).headD 0,
         (serializePublishBytes p pid (publishRemainingLength p)).drop
           (1 + remainingLengthEncodedSize (publishRemainingLength p)),
         publishRemainingLength p⟩
        0 ⟨.MQTTQoS0, false, false, [], []⟩
      = (.MQTTSuccess, (if p.qos = .MQTTQoS0 then 0 else pid), p) := by
  constructor
  · simp only [MQTT_SerializePublish]
    rw [if_neg (by
      intro hor
      rcases hor with ⟨hq1, h0⟩ | h | h
      · exact hq hq1 h0
      · exact h rfl
      · omega)]
    rw [if_neg (by rw [List.length_replicate]; omega)]
    rw [List.drop_eq_nil_of_le (by rw [List.length_replicate])]
    rw [List.append_nil]
  · have hhead : (serializePublishBytes p pid (publishRemainingLength p)).headD 0
        = publishHeaderByte p := by
      simp [serializePublishBytes]
    have hdrop : (serializePublishBytes p pid (publishRemainingLength p)).drop
        (1 + remainingLengthEncodedSize (publishRemainingLength p))
        = encodeU16 p.pTopicName.length ++ p.pTopicName
          ++ (if p.qos = .MQTTQoS0 then [] else encodeU16 pid) ++ p.pPayload := by
      simp only [serializePublishBytes, List.cons_append, List.append_assoc]
      rw [show 1 + remainingLengthEncodedSize (publishRemainingLength p)
          = remainingLengthEncodedSize (publishRemainingLength p) + 1 by omega]
      rw [List.drop_succ_cons]
      rw [List.drop_left' (encodeRemainingLength_length _ hmax)]
    rw [hhead, hdrop]
    exact deserializePublish_of_serialized p pid htopic hpid

/-- Witness for C2 at a concrete QoS 1 publish with topic "ab", payload
1 2 3 and packet identifier 7. -/
theorem claim_C2_publish_roundtrip_witness :
    MQTT_SerializePublish ⟨.MQTTQoS1, true, false, [97, 98], [1, 2, 3]⟩ 7
        (publishRemainingLength ⟨.MQTTQoS1, true, false, [97, 98], [1, 2, 3]⟩)
        (List.replicate (1 + remainingLengthEncodedSize
          (publishRemainingLength ⟨.MQTTQoS1, true, false, [97, 98], [1, 2, 3]⟩)
          + publishRemainingLength ⟨.MQTTQoS1, true, false, [97, 98], [1, 2, 3]⟩) 0)
      = (.MQTTSuccess, serializePublishBytes ⟨.MQTTQoS1, true, false, [97, 98], [1, 2, 3]⟩ 7
          (publishRemainingLength ⟨.MQTTQoS1, true, false, [97, 98], [1, 2, 3]⟩))
    ∧ MQTT_DeserializePublish
        ⟨(serializePublishBytes ⟨.MQTTQoS1, true, false, [97, 98], [1, 2, 3]⟩ 7
            (publishRemainingLength ⟨.MQTTQoS1, true, false, [97, 98], [1, 2, 3]⟩)).headD 0,
         (serializePublishBytes ⟨.MQTTQoS1, true, false, [97, 98], [1, 2, 3]⟩ 7
            (publishRemainingLength ⟨.MQTTQoS1, true, false, [97, 98], [1, 2, 3]⟩)).drop
           (1 + remainingLengthEncodedSize
             (publishRemainingLength ⟨.MQTTQoS1, true, false, [97, 98], [1, 2, 3]⟩)),
         publishRemainingLength ⟨.MQTTQoS1, true, false, [97, 98], [1, 2, 3]⟩⟩
        0 ⟨.MQTTQoS0, false, false, [], []⟩
      = (.MQTTSuccess,
         (if (⟨.MQTTQoS1, true, false, [97, 98], [1, 2, 3]⟩ : MQTTPublishInfo).qos
            = .MQTTQoS0 then 0 else 7),
         ⟨.MQTTQoS1, true, false, [97, 98], [1, 2, 3]⟩) :=
  claim_C2_publish_roundtrip ⟨.MQTTQoS1, true, false, [97, 98], [1, 2, 3]⟩ 7
    (by decide) (by decide) (by decide) (by decide)
